import Mathlib

/-!
Verification development for the `mirai` trip-planner workflow
(`src/ai-service/trip_planner`).  The Python task functions, the router
`should_adjust_budget` and the graph wiring of `agent.py` are embedded as
executable Lean definitions.  External effects (SerpAPI searches, LLM calls,
the vector store) enter as explicit parameters: the outcome of each call is an
input of the embedded node.  The LangGraph execution engine itself is not part
of the repository, so its scheduling, merge and routing semantics are modelled
from the specification (wave-based execution, alphabetical merge order,
deferred-node barrier, router evaluated on the just-merged state with its
counter mutation persisting).
-/

namespace TripPlanner

/-- A flight option as produced by `search_flights` (tools.py): only the
fields the embedded logic reads (`id`, `price`). -/
structure Flight where
  id : String
  price : Int
deriving DecidableEq, Repr

/-- A hotel option (`search_hotels`): fields read by the nodes. -/
structure Hotel where
  id : String
  rating : Int
  total_price : Int
deriving DecidableEq, Repr

/-- An activity option (`search_activities`). -/
structure Activity where
  id : String
  rating : Int
  price : Int
deriving DecidableEq, Repr

/-- A restaurant option (`search_restaurants`). -/
structure Restaurant where
  id : String
  rating : Int
  avg_cost_per_person : Int
deriving DecidableEq, Repr

/-- Parsed key-phrases payload (`key_phrases_node`): language and a list of
(english, translation, phonetic) triples. -/
structure KeyPhrases where
  language : String
  phrases : List (String × String × String)
deriving DecidableEq, Repr

/-- The cost dictionary built by `estimate_costs` (tools.py). -/
structure CostBreakdown where
  transport : Int
  accommodation : Int
  activities : Int
  dining : Int
  miscellaneous : Int
  total : Int
deriving DecidableEq, Repr

/-- The `transport` argument of `estimate_costs`: `None`, a single flight
dict, or a list of flights (round trip). -/
inductive TransportArg where
  | null
  | single (f : Flight)
  | roundTrip (fs : List Flight)
deriving DecidableEq, Repr

/-- One day entry of a parsed LLM itinerary, reduced to the two facts the
validation loop of `itinerary_generator_node` checks: presence of a `day` key
and of all five slots with an activity or restaurant. -/
structure DayPlan where
  day : Option Nat
  slots_ok : Bool
deriving DecidableEq, Repr

/-- The final itinerary value: either the validated LLM days or the fallback
plan built from the selected options over `duration` days. -/
inductive FinalItinerary where
  | fromLLM (days : List DayPlan)
  | fallbackPlan (num_days : Nat)
deriving DecidableEq, Repr

/-- The shared graph state, mirroring `TripPlannerState`
(trip_planner/utils/state.py).  Python float amounts are modelled as integers
(the embedded logic only adds, multiplies, subtracts and compares them) and
the free-form dictionaries keep only the fields the embedded code reads. -/
structure TripPlannerState where
  destination : String
  origin : Option String
  travel_dates : Option (String × String)
  duration : Option Nat
  budget : Int
  preferred_activities : List String
  constraints : List (String × String)
  transport_options : List Flight
  accommodation_options : List Hotel
  activities_options : List Activity
  dining_options : List Restaurant
  key_phrases : Option KeyPhrases
  activity_stories : List (String × String)
  selected_transport : Option Flight
  selected_accommodation : Option Hotel
  selected_activities : List Activity
  selected_restaurants : List Restaurant
  total_cost : Int
  remaining_budget : Int
  cost_breakdown : Option CostBreakdown
  requires_adjustment : Bool
  adjustment_iteration : Nat
  max_iterations : Nat
  final_itinerary : Option FinalItinerary
  messages : List String
deriving DecidableEq, Repr

/-- A partial state update as returned by a node: only the fields the node
wrote are `some`.  `selected_transport` and `selected_accommodation` can be
written with the value `None`, hence the doubled `Option`. -/
structure StateUpdate where
  transport_options : Option (List Flight) := none
  accommodation_options : Option (List Hotel) := none
  activities_options : Option (List Activity) := none
  dining_options : Option (List Restaurant) := none
  key_phrases : Option KeyPhrases := none
  activity_stories : Option (List (String × String)) := none
  selected_transport : Option (Option Flight) := none
  selected_accommodation : Option (Option Hotel) := none
  selected_activities : Option (List Activity) := none
  selected_restaurants : Option (List Restaurant) := none
  cost_breakdown : Option CostBreakdown := none
  total_cost : Option Int := none
  remaining_budget : Option Int := none
  requires_adjustment : Option Bool := none
  adjustment_iteration : Option Nat := none
  final_itinerary : Option FinalItinerary := none
  messages : Option (List String) := none
deriving DecidableEq, Repr

/-- The empty partial update. -/
def emptyUpdate : StateUpdate := {}

/-- Merge one node's partial update into the state.  Every field uses the
engine's default last-value (overwrite) channel, except `messages`, which
`state.py` declares as `Annotated[List[str], operator.add]`: the returned
list is appended to the existing one. -/
def applyUpdate (s : TripPlannerState) (u : StateUpdate) : TripPlannerState :=
  { s with
    transport_options := u.transport_options.getD s.transport_options
    accommodation_options := u.accommodation_options.getD s.accommodation_options
    activities_options := u.activities_options.getD s.activities_options
    dining_options := u.dining_options.getD s.dining_options
    key_phrases := match u.key_phrases with
      | some k => some k
      | none => s.key_phrases
    activity_stories := u.activity_stories.getD s.activity_stories
    selected_transport := u.selected_transport.getD s.selected_transport
    selected_accommodation := u.selected_accommodation.getD s.selected_accommodation
    selected_activities := u.selected_activities.getD s.selected_activities
    selected_restaurants := u.selected_restaurants.getD s.selected_restaurants
    cost_breakdown := match u.cost_breakdown with
      | some c => some c
      | none => s.cost_breakdown
    total_cost := u.total_cost.getD s.total_cost
    remaining_budget := u.remaining_budget.getD s.remaining_budget
    requires_adjustment := u.requires_adjustment.getD s.requires_adjustment
    adjustment_iteration := u.adjustment_iteration.getD s.adjustment_iteration
    final_itinerary := match u.final_itinerary with
      | some f => some f
      | none => s.final_itinerary
    messages := s.messages ++ u.messages.getD [] }

/-- Names of the state fields a partial update writes. -/
def writtenFields (u : StateUpdate) : List String :=
  (List.filter (fun p => p.2)
    [("transport_options", u.transport_options.isSome),
     ("accommodation_options", u.accommodation_options.isSome),
     ("activities_options", u.activities_options.isSome),
     ("dining_options", u.dining_options.isSome),
     ("key_phrases", u.key_phrases.isSome),
     ("activity_stories", u.activity_stories.isSome),
     ("selected_transport", u.selected_transport.isSome),
     ("selected_accommodation", u.selected_accommodation.isSome),
     ("selected_activities", u.selected_activities.isSome),
     ("selected_restaurants", u.selected_restaurants.isSome),
     ("cost_breakdown", u.cost_breakdown.isSome),
     ("total_cost", u.total_cost.isSome),
     ("remaining_budget", u.remaining_budget.isSome),
     ("requires_adjustment", u.requires_adjustment.isSome),
     ("adjustment_iteration", u.adjustment_iteration.isSome),
     ("final_itinerary", u.final_itinerary.isSome),
     ("messages", u.messages.isSome)]).map (fun p => p.1)

/-- Embedding of `estimate_costs` (trip_planner/utils/tools.py).  Note that in
the source an empty transport list is falsy and yields cost 0, which agrees
with the sum over the empty list taken here. -/
def estimate_costs (transport : TransportArg) (accommodation : Option Hotel)
    (activities : List Activity) (restaurants : List Restaurant)
    (duration : Nat) (num_travelers : Nat) : CostBreakdown :=
  let transport_cost : Int :=
    match transport with
    | .null => 0
    | .single f => f.price * (num_travelers : Int)
    | .roundTrip fs => (fs.map (fun f => f.price)).sum * (num_travelers : Int)
  let accommodation_cost : Int :=
    match accommodation with
    | some h => h.total_price
    | none => 0
  let activities_cost : Int := (activities.map (fun a => a.price)).sum * (num_travelers : Int)
  let dining_cost : Int := (restaurants.map (fun r => r.avg_cost_per_person)).sum * (num_travelers : Int)
  let miscellaneous_cost : Int := (duration : Int) * 20 * (num_travelers : Int)
  { transport := transport_cost
    accommodation := accommodation_cost
    activities := activities_cost
    dining := dining_cost
    miscellaneous := miscellaneous_cost
    total := transport_cost + accommodation_cost + activities_cost + dining_cost +
      miscellaneous_cost }

/-- Conversion used by `budget_coordinator_node`: the selected transport passed
to `estimate_costs` is a single flight dict or `None`. -/
def transportArgOfOption : Option Flight → TransportArg
  | some f => .single f
  | none => .null

/-- The top-10 selection of `transport_node` (nodes/transport_node.py): sort
all flights by price; on LLM success keep the flights whose ids were
selected, pad with the cheapest unselected flights up to ten, and cap at ten;
on LLM or parse failure fall back to the ten cheapest flights. -/
def transportOptions (all_flights : List Flight)
    (llm : Except String (List String)) : List Flight :=
  if 0 < all_flights.length then
    let sorted_all := List.insertionSort (fun a b => a.price ≤ b.price) all_flights
    match llm with
    | .ok selected_ids =>
      let selected_flights := all_flights.filter (fun f => selected_ids.contains f.id)
      let padded :=
        if selected_flights.length < 10 ∧ selected_flights.length < all_flights.length then
          let remaining_flights := sorted_all.filter (fun f => !(selected_ids.contains f.id))
          let needed := min (10 - selected_flights.length) remaining_flights.length
          selected_flights ++ remaining_flights.take needed
        else selected_flights
      padded.take 10
    | .error _ => sorted_all.take 10
  else []

/-- Embedding of `transport_node` (nodes/transport_node.py).  `search` is the
outcome of the `search_flights` call, which sits outside any try/except in
the source, so a search failure propagates out of the node; `llm` is the
outcome of the LLM invocation plus JSON parse, which the source wraps in
try/except with a cheapest-ten fallback. -/
def transport_node (state : TripPlannerState) (search : Except String (List Flight))
    (llm : Except String (List String)) : Except String StateUpdate :=
  match search with
  | .error e => .error e
  | .ok all_flights =>
    let opts := transportOptions all_flights llm
    .ok { transport_options := some opts
          messages := some (state.messages ++
            ["Selected " ++ toString opts.length ++ " top transport options"]) }

/-- The top-10 selection of `accommodation_node`: sort by rating descending,
keep LLM-selected hotels padded with top-rated remaining ones, cap at ten;
fall back to the ten top-rated hotels on LLM failure. -/
def accommodationOptions (all_hotels : List Hotel)
    (llm : Except String (List String)) : List Hotel :=
  if 0 < all_hotels.length then
    let sorted_all := List.insertionSort (fun a b => b.rating ≤ a.rating) all_hotels
    match llm with
    | .ok selected_ids =>
      let selected_hotels := all_hotels.filter (fun h => selected_ids.contains h.id)
      let padded :=
        if selected_hotels.length < 10 ∧ selected_hotels.length < all_hotels.length then
          let remaining_hotels := sorted_all.filter (fun h => !(selected_ids.contains h.id))
          let needed := min (10 - selected_hotels.length) remaining_hotels.length
          selected_hotels ++ remaining_hotels.take needed
        else selected_hotels
      padded.take 10
    | .error _ => sorted_all.take 10
  else []

/-- Embedding of `accommodation_node` (nodes/accommodation_node.py): the
`search_hotels` call is outside any try/except; the LLM step is caught. -/
def accommodation_node (state : TripPlannerState) (search : Except String (List Hotel))
    (llm : Except String (List String)) : Except String StateUpdate :=
  match search with
  | .error e => .error e
  | .ok all_hotels =>
    let opts := accommodationOptions all_hotels llm
    .ok { accommodation_options := some opts
          messages := some (state.messages ++
            ["Selected " ++ toString opts.length ++ " top accommodations"]) }

/-- The top-10 selection of `activities_node`: sort by rating descending,
keep LLM-selected activities padded with top-rated remaining ones, cap at
ten; fall back to the ten top-rated activities on LLM failure. -/
def activitiesOptions (all_activities : List Activity)
    (llm : Except String (List String)) : List Activity :=
  if 0 < all_activities.length then
    let sorted_all := List.insertionSort (fun a b => b.rating ≤ a.rating) all_activities
    match llm with
    | .ok selected_ids =>
      let selected_activities := all_activities.filter (fun a => selected_ids.contains a.id)
      let padded :=
        if selected_activities.length < 10 ∧
            selected_activities.length < all_activities.length then
          let remaining := sorted_all.filter (fun a => !(selected_ids.contains a.id))
          let needed := min (10 - selected_activities.length) remaining.length
          selected_activities ++ remaining.take needed
        else selected_activities
      padded.take 10
    | .error _ => sorted_all.take 10
  else []

/-- Embedding of `activities_node` (nodes/activities_node.py): the
`search_activities` call is outside any try/except; the LLM step is caught. -/
def activities_node (state : TripPlannerState) (search : Except String (List Activity))
    (llm : Except String (List String)) : Except String StateUpdate :=
  match search with
  | .error e => .error e
  | .ok all_activities =>
    let opts := activitiesOptions all_activities llm
    .ok { activities_options := some opts
          messages := some (state.messages ++
            ["Selected " ++ toString opts.length ++ " top activities"]) }

/-- The top-10 selection of `dining_node`: sort by rating descending, keep
LLM-selected restaurants padded with top-rated remaining ones, cap at ten;
fall back to the ten top-rated restaurants on LLM failure. -/
def diningOptions (all_restaurants : List Restaurant)
    (llm : Except String (List String)) : List Restaurant :=
  if 0 < all_restaurants.length then
    let sorted_all := List.insertionSort (fun a b => b.rating ≤ a.rating) all_restaurants
    match llm with
    | .ok selected_ids =>
      let selected_restaurants := all_restaurants.filter (fun r => selected_ids.contains r.id)
      let padded :=
        if selected_restaurants.length < 10 ∧
            selected_restaurants.length < all_restaurants.length then
          let remaining := sorted_all.filter (fun r => !(selected_ids.contains r.id))
          let needed := min (10 - selected_restaurants.length) remaining.length
          selected_restaurants ++ remaining.take needed
        else selected_restaurants
      padded.take 10
    | .error _ => sorted_all.take 10
  else []

/-- Embedding of `dining_node` (nodes/dining_node.py): the
`search_restaurants` call is outside any try/except; the LLM step is
caught. -/
def dining_node (state : TripPlannerState) (search : Except String (List Restaurant))
    (llm : Except String (List String)) : Except String StateUpdate :=
  match search with
  | .error e => .error e
  | .ok all_restaurants =>
    let opts := diningOptions all_restaurants llm
    .ok { dining_options := some opts
          messages := some (state.messages ++
            ["Selected " ++ toString opts.length ++ " top restaurants"]) }

/-- The hard-coded fallback phrase payload of `key_phrases_node`. -/
def fallback_phrases : KeyPhrases :=
  { language := "Unknown"
    phrases := [("Hello", "Hello", "heh-loh"), ("Thank you", "Thank you", "thank yoo")] }

/-- Embedding of `key_phrases_node` (nodes/key_phrases_node.py).  The
`llm.invoke` call sits outside the try block, so an invocation failure
propagates; the JSON parse is caught and falls back to `fallback_phrases`. -/
def key_phrases_node (state : TripPlannerState) (invoke : Except String Unit)
    (parsed : Except String KeyPhrases) : Except String StateUpdate :=
  match invoke with
  | .error e => .error e
  | .ok _ =>
    match parsed with
    | .ok phrases_data =>
      .ok { key_phrases := some phrases_data
            messages := some (state.messages ++ ["Key phrases generated"]) }
    | .error _ =>
      .ok { key_phrases := some fallback_phrases
            messages := some (state.messages ++ ["Key phrases generated (fallback)"]) }

/-- Per-activity outcome of the story pipeline in `story_generator_node`:
a story found in the vector DB, a freshly generated story (with the result of
the save attempt), or a failure of both lookup and generation. -/
inductive StoryOutcome where
  | fromDB (story : String)
  | generated (story : String) (saved : Bool)
  | failed
deriving DecidableEq, Repr

/-- Whether an outcome came from the vector DB. -/
def StoryOutcome.isFromDB : StoryOutcome → Bool
  | .fromDB _ => true
  | _ => false

/-- Whether an outcome is a freshly generated story. -/
def StoryOutcome.isGenerated : StoryOutcome → Bool
  | .generated _ _ => true
  | _ => false

/-- The story value of an outcome, if any. -/
def StoryOutcome.story : StoryOutcome → Option String
  | .fromDB st => some st
  | .generated st _ => some st
  | .failed => none

/-- The `activity_stories` mapping built by `story_generator_node`: activities
with an empty id are skipped, and a failed lookup plus generation leaves no
entry (the source `continue`s on both paths). -/
def storyStories (acts : List Activity) (outcome : String → StoryOutcome) :
    List (String × String) :=
  acts.filterMap (fun a =>
    if a.id = "" then none
    else (outcome a.id).story.map (fun st => (a.id, st)))

/-- Embedding of `story_generator_node` (nodes/story_generator_node.py).  All
per-activity DB, LLM and save errors are caught inside the loop, so the node
always returns a partial update. -/
def story_generator_node (state : TripPlannerState)
    (outcome : String → StoryOutcome) : Except String StateUpdate :=
  if state.activities_options.isEmpty then
    .ok { activity_stories := some []
          messages := some (state.messages ++ ["No activities to generate stories for"]) }
  else
    let stories := storyStories state.activities_options outcome
    let from_db := state.activities_options.countP
      (fun a => !(a.id = "") && (outcome a.id).isFromDB)
    let generated := state.activities_options.countP
      (fun a => !(a.id = "") && (outcome a.id).isGenerated)
    .ok { activity_stories := some stories
          messages := some (state.messages ++
            ["Generated " ++ toString stories.length ++ " activity stories (" ++
              toString from_db ++ " from DB, " ++ toString generated ++ " new)"]) }

/-- The four selection ids the budget coordinator reads from the parsed LLM
response; a missing key raises in the source and lands in the fallback, so a
`parsed` failure covers both JSON errors and missing keys. -/
structure CoordSelection where
  selected_transport_id : String
  selected_accommodation_id : String
  selected_activity_ids : List String
  selected_restaurant_ids : List String
deriving DecidableEq, Repr

/-- Embedding of `budget_coordinator_node`
(nodes/budget_coordinator_node.py).  `invoke` is the outcome of the
`llm.invoke` call, which sits outside the try block and therefore propagates
on failure; `parsed` is the outcome of parsing the response and indexing its
keys, which is caught and falls back to the cheapest options.  In both
branches the returned `adjustment_iteration` is the value read from the
state, unchanged. -/
def budget_coordinator_node (state : TripPlannerState) (invoke : Except String Unit)
    (parsed : Except String CoordSelection) : Except String StateUpdate :=
  let transport_options := state.transport_options
  let accommodation_options := state.accommodation_options
  let activities_options := state.activities_options
  let dining_options := state.dining_options
  let duration := state.duration.getD 3
  let budget := state.budget
  let adjustment_iteration := state.adjustment_iteration
  match invoke with
  | .error e => .error e
  | .ok _ =>
    match parsed with
    | .ok selection =>
      let selected_transport :=
        match transport_options.find?
            (fun t => t.id == selection.selected_transport_id) with
        | some t => some t
        | none => transport_options.head?
      let selected_accommodation :=
        match accommodation_options.find?
            (fun h => h.id == selection.selected_accommodation_id) with
        | some h => some h
        | none => accommodation_options.head?
      let selected_activities :=
        activities_options.filter (fun a => selection.selected_activity_ids.contains a.id)
      let selected_restaurants :=
        dining_options.filter (fun r => selection.selected_restaurant_ids.contains r.id)
      let cost_breakdown := estimate_costs (transportArgOfOption selected_transport)
        selected_accommodation selected_activities selected_restaurants duration 1
      let total_cost := cost_breakdown.total
      let remaining_budget := budget - total_cost
      let fits_budget : Bool := decide (total_cost ≤ budget)
      .ok { selected_transport := some selected_transport
            selected_accommodation := some selected_accommodation
            selected_activities := some selected_activities
            selected_restaurants := some selected_restaurants
            cost_breakdown := some cost_breakdown
            total_cost := some total_cost
            remaining_budget := some remaining_budget
            requires_adjustment := some (!fits_budget)
            adjustment_iteration := some adjustment_iteration
            messages := some (state.messages ++
              ["Budget coordination complete: $" ++ toString total_cost]) }
    | .error _ =>
      let selected_transport := transport_options.head?
      let selected_accommodation := accommodation_options.head?
      let selected_activities := activities_options.take 5
      let selected_restaurants := dining_options.take (duration * 2)
      let cost_breakdown := estimate_costs (transportArgOfOption selected_transport)
        selected_accommodation selected_activities selected_restaurants duration 1
      let total_cost := cost_breakdown.total
      .ok { selected_transport := some selected_transport
            selected_accommodation := some selected_accommodation
            selected_activities := some selected_activities
            selected_restaurants := some selected_restaurants
            cost_breakdown := some cost_breakdown
            total_cost := some total_cost
            remaining_budget := some (budget - total_cost)
            requires_adjustment := some (decide (total_cost > budget))
            adjustment_iteration := some adjustment_iteration
            messages := some (state.messages ++
              ["Budget coordination complete (fallback)"]) }

/-- The parsed itinerary payload of `itinerary_generator_node`, reduced to the
day list the validation loop inspects. -/
structure ItinParsed where
  itinerary : List DayPlan
deriving DecidableEq, Repr

/-- The validation loop of `itinerary_generator_node`: keep days that are
dicts with a `day` key and all five slots filled. -/
def validatedDays (days : List DayPlan) : List DayPlan :=
  days.filter (fun d => d.day.isSome && d.slots_ok)

/-- The fallback return of `itinerary_generator_node`: an itinerary built from
the selected options over `duration` days. -/
def itineraryFallback (state : TripPlannerState) (duration : Nat) : StateUpdate :=
  { final_itinerary := some (.fallbackPlan duration)
    messages := some (state.messages ++ ["Itinerary generation complete (fallback)"]) }

/-- Embedding of `itinerary_generator_node`
(nodes/itinerary_generator_node.py).  The `llm.invoke` call sits outside the
try block and propagates on failure; parse errors, an empty itinerary and a
fully invalid day list all land in the caught fallback path. -/
def itinerary_generator_node (state : TripPlannerState) (invoke : Except String Unit)
    (parsed : Except String ItinParsed) : Except String StateUpdate :=
  let duration := state.duration.getD 3
  match invoke with
  | .error e => .error e
  | .ok _ =>
    match parsed with
    | .ok itin =>
      let validated := validatedDays itin.itinerary
      if itin.itinerary.isEmpty || validated.isEmpty then
        .ok (itineraryFallback state duration)
      else
        .ok { final_itinerary := some (.fromLLM validated)
              messages := some (state.messages ++ ["Itinerary generation complete"]) }
    | .error _ => .ok (itineraryFallback state duration)

/-- Embedding of `should_adjust_budget` (trip_planner/agent.py).  The source
mutates `state["adjustment_iteration"]` before returning `"adjust"`, so the
embedding returns the label together with the possibly mutated state. -/
def should_adjust_budget (state : TripPlannerState) : String × TripPlannerState :=
  if state.requires_adjustment ∧ state.adjustment_iteration < state.max_iterations then
    ("adjust", { state with adjustment_iteration := state.adjustment_iteration + 1 })
  else
    ("generate", state)

/-- The target map of the conditional edge added after `budget_coordinator`
in `create_trip_planner_graph` (agent.py). -/
def budget_targets : List (String × String) :=
  [("adjust", "budget_coordinator"), ("generate", "itinerary_generator")]

/-- The nodes registered by `create_trip_planner_graph`, in registration
order. -/
def tripNodes : List String :=
  ["transport", "accommodation", "activities", "story_generator", "dining",
   "key_phrases", "budget_coordinator", "itinerary_generator"]

/-- The nodes registered with `defer=True`. -/
def deferredNodes : List String := ["budget_coordinator"]

/-- The plain edges of `create_trip_planner_graph`. -/
def tripEdges : List (String × String) :=
  [("START", "transport"), ("START", "accommodation"), ("START", "activities"),
   ("START", "dining"), ("START", "key_phrases"),
   ("activities", "story_generator"),
   ("transport", "budget_coordinator"), ("accommodation", "budget_coordinator"),
   ("dining", "budget_coordinator"), ("key_phrases", "budget_coordinator"),
   ("story_generator", "budget_coordinator")]

/-- Dependency edges used for scheduling: the plain edges plus the forward
target of the conditional edge.  The `"adjust"` self-loop is the retry edge,
which starts a new pass rather than creating a dependency, and is handled by
the pass loop of the runner. -/
def schedEdges : List (String × String) :=
  tripEdges ++ [("budget_coordinator", "itinerary_generator")]

/-- Direct predecessors of a node under the scheduling edges. -/
def predsOf (n : String) : List String :=
  (schedEdges.filter (fun e => e.2 == n)).map (fun e => e.1)

/-- Fuel-bounded closure of `predsOf` used to gather all ancestors. -/
def ancestorsAux : Nat → List String → List String
  | 0, acc => acc
  | f + 1, acc =>
    let new := ((acc.map predsOf).flatten).filter (fun m => !(acc.contains m))
    if new.isEmpty then acc else ancestorsAux f (acc ++ new)

/-- All strict ancestors of a node (every node on some path into it). -/
def ancestorsOf (n : String) : List String :=
  (ancestorsAux (tripNodes.length + 1) [n]).filter (fun m => m != n)

/-- Modelled from the spec: eligibility of a node for the next wave.  A
non-deferred node is eligible once its direct predecessors have completed; a
deferred node additionally waits until every node on every path into it has
completed (the barrier of a deferred node). -/
def eligibleNode (completed : List String) (n : String) : Bool :=
  (predsOf n).all (fun p => completed.contains p) &&
    (!(deferredNodes.contains n) ||
      (ancestorsOf n).all (fun p => completed.contains p))

/-- Modelled from the spec: the wave schedule of the executor.  Starting from
the START marker, each step collects every not-yet-completed eligible node
into one concurrent wave. -/
def scheduleWavesAux : Nat → List String → List (List String)
  | 0, _ => []
  | f + 1, completed =>
    let wave := tripNodes.filter (fun n => !(completed.contains n) && eligibleNode completed n)
    if wave.isEmpty then []
    else wave :: scheduleWavesAux f (completed ++ wave)

/-- The wave schedule of the supplied trip-planner graph. -/
def scheduleWaves : List (List String) :=
  scheduleWavesAux tripNodes.length ["START"]

/-- The fixed outcomes of every external call made by the task functions:
treating each node as a fixed function of its input snapshot means fixing
these outcomes. -/
structure Externals where
  transportSearch : Except String (List Flight)
  transportLLM : Except String (List String)
  accommodationSearch : Except String (List Hotel)
  accommodationLLM : Except String (List String)
  activitiesSearch : Except String (List Activity)
  activitiesLLM : Except String (List String)
  diningSearch : Except String (List Restaurant)
  diningLLM : Except String (List String)
  keyInvoke : Except String Unit
  keyParsed : Except String KeyPhrases
  storyOutcome : String → StoryOutcome
  coordInvoke : Except String Unit
  coordParsed : Except String CoordSelection
  itinInvoke : Except String Unit
  itinParsed : Except String ItinParsed

/-- Dispatch a node name to its task function. -/
def runNode (ext : Externals) (name : String) (s : TripPlannerState) :
    Except String StateUpdate :=
  if name = "transport" then transport_node s ext.transportSearch ext.transportLLM
  else if name = "accommodation" then
    accommodation_node s ext.accommodationSearch ext.accommodationLLM
  else if name = "activities" then activities_node s ext.activitiesSearch ext.activitiesLLM
  else if name = "dining" then dining_node s ext.diningSearch ext.diningLLM
  else if name = "key_phrases" then key_phrases_node s ext.keyInvoke ext.keyParsed
  else if name = "story_generator" then story_generator_node s ext.storyOutcome
  else if name = "budget_coordinator" then
    budget_coordinator_node s ext.coordInvoke ext.coordParsed
  else if name = "itinerary_generator" then
    itinerary_generator_node s ext.itinInvoke ext.itinParsed
  else .ok emptyUpdate

/-- Run every node of a wave on the same snapshot, collecting their partial
updates in the given order; a node fault aborts the wave. -/
def collectUpdates (ext : Externals) (s : TripPlannerState) :
    List String → Except String (List StateUpdate)
  | [] => .ok []
  | n :: ns =>
    match runNode ext n s with
    | .error e => .error e
    | .ok u =>
      match collectUpdates ext s ns with
      | .error e => .error e
      | .ok us => .ok (u :: us)

/-- Modelled from the spec: one wave of the executor.  All nodes of the wave
read the same snapshot; their updates are merged into the state in the order
of `names` (the runner always passes a name-sorted list, giving the
deterministic alphabetical merge order of the spec). -/
def runWave (ext : Externals) (names : List String) (s : TripPlannerState) :
    Except String TripPlannerState :=
  match collectUpdates ext s names with
  | .error e => .error e
  | .ok us => .ok (us.foldl applyUpdate s)

/-- Code-point comparison of char lists: the alphabetical order the engine
uses for its deterministic merge order. -/
def charLeAux : List Char → List Char → Bool
  | [], _ => true
  | _ :: _, [] => false
  | a :: as, b :: bs =>
    if a < b then true
    else if b < a then false
    else charLeAux as bs

/-- Alphabetical (code-point) order on node names. -/
def strLe (a b : String) : Bool := charLeAux a.data b.data

/-- `charLeAux` is total. -/
theorem charLeAux_total (as bs : List Char) :
    charLeAux as bs = true ∨ charLeAux bs as = true := by
  induction as generalizing bs with
  | nil => exact Or.inl rfl
  | cons a as ih =>
    cases bs with
    | nil => exact Or.inr rfl
    | cons b bs =>
      rcases lt_trichotomy a b with h | h | h
      · exact Or.inl (by simp [charLeAux, h])
      · subst h
        rcases ih bs with hr | hr
        · exact Or.inl (by simp [charLeAux, lt_irrefl, hr])
        · exact Or.inr (by simp [charLeAux, lt_irrefl, hr])
      · exact Or.inr (by simp [charLeAux, h])

/-- `charLeAux` is transitive. -/
theorem charLeAux_trans (as bs cs : List Char) (h1 : charLeAux as bs = true)
    (h2 : charLeAux bs cs = true) : charLeAux as cs = true := by
  induction as generalizing bs cs with
  | nil => rfl
  | cons a as ih =>
    cases bs with
    | nil => simp [charLeAux] at h1
    | cons b bs =>
      cases cs with
      | nil => simp [charLeAux] at h2
      | cons c cs =>
        simp only [charLeAux] at h1 h2 ⊢
        by_cases hab : a < b
        · by_cases hbc : b < c
          · simp [lt_trans hab hbc]
          · by_cases hcb : c < b
            · simp [hbc, hcb] at h2
            · have hbceq : b = c := le_antisymm (not_lt.mp hcb) (not_lt.mp hbc)
              subst hbceq
              simp [hab]
        · by_cases hba : b < a
          · simp [hab, hba] at h1
          · have habeq : a = b := le_antisymm (not_lt.mp hba) (not_lt.mp hab)
            subst habeq
            simp only [lt_irrefl, if_false] at h1
            by_cases hac : a < c
            · simp [hac]
            · by_cases hca : c < a
              · simp [hac, hca] at h2
              · have haceq : a = c := le_antisymm (not_lt.mp hca) (not_lt.mp hac)
                subst haceq
                simp only [lt_irrefl, if_false] at h2 ⊢
                exact ih bs cs h1 h2

/-- `charLeAux` is antisymmetric. -/
theorem charLeAux_antisymm (as bs : List Char) (h1 : charLeAux as bs = true)
    (h2 : charLeAux bs as = true) : as = bs := by
  induction as generalizing bs with
  | nil =>
    cases bs with
    | nil => rfl
    | cons b bs => simp [charLeAux] at h2
  | cons a as ih =>
    cases bs with
    | nil => simp [charLeAux] at h1
    | cons b bs =>
      simp only [charLeAux] at h1 h2
      by_cases hab : a < b
      · simp [lt_asymm hab, hab] at h2
      · by_cases hba : b < a
        · simp [hab, hba] at h1
        · have habeq : a = b := le_antisymm (not_lt.mp hba) (not_lt.mp hab)
          subst habeq
          simp only [lt_irrefl, if_false] at h1 h2
          rw [ih bs h1 h2]

instance : IsTotal String (fun a b => strLe a b = true) :=
  ⟨fun a b => charLeAux_total a.data b.data⟩

instance : IsTrans String (fun a b => strLe a b = true) :=
  ⟨fun a b c => charLeAux_trans a.data b.data c.data⟩

instance : IsAntisymm String (fun a b => strLe a b = true) :=
  ⟨fun a b h1 h2 => by
    cases a with
    | mk da =>
      cases b with
      | mk db => exact congrArg String.mk (charLeAux_antisymm da db h1 h2)⟩

/-- Sort a wave's completion order into the deterministic merge order. -/
def sortString (l : List String) : List String :=
  List.insertionSort (fun a b => strLe a b = true) l

/-- Sorting is invariant under permutation of the input: the normal form of
any completion order of a wave. -/
theorem sortString_perm (l1 l2 : List String) (h : l1.Perm l2) :
    sortString l1 = sortString l2 :=
  List.eq_of_perm_of_sorted
    ((List.perm_insertionSort _ l1).trans (h.trans (List.perm_insertionSort _ l2).symm))
    (List.sorted_insertionSort _ l1) (List.sorted_insertionSort _ l2)

/-- The parallel fan-out wave reachable from START, in edge order. -/
def fanoutWave : List String :=
  ["transport", "accommodation", "activities", "dining", "key_phrases"]

/-- Modelled from the spec: the two structural waves preceding the
budget-coordinator barrier.  `ord` permutes each wave into an arbitrary
completion order; the merge always happens in sorted order.  The resulting
state is the snapshot the deferred `budget_coordinator` receives. -/
def phase1 (ord : Nat → List String → List String) (ext : Externals)
    (s0 : TripPlannerState) : Except String TripPlannerState :=
  match runWave ext (sortString (ord 0 fanoutWave)) s0 with
  | .error e => .error e
  | .ok s1 => runWave ext (sortString (ord 1 ["story_generator"])) s1

/-- Modelled from the spec: the retry loop around `budget_coordinator`.  Each
pass runs the coordinator, merges its update, then evaluates the router on
the just-merged state; the router's counter mutation persists.  The `adjust`
label loops back, the `generate` label proceeds to `itinerary_generator`.
The fuel is the defensive re-entry ceiling: exhausting it is the
`NonTerminatingGraph` failure. -/
def coordLoop (ext : Externals) : Nat → TripPlannerState → List String →
    Except String (TripPlannerState × List String)
  | 0, _, _ => .error "NonTerminatingGraph"
  | fuel + 1, s, labels =>
    match budget_coordinator_node s ext.coordInvoke ext.coordParsed with
    | .error e => .error e
    | .ok u =>
      let merged := applyUpdate s u
      let routed := should_adjust_budget merged
      if routed.1 = "adjust" then
        coordLoop ext fuel routed.2 (labels ++ [routed.1])
      else
        match itinerary_generator_node routed.2 ext.itinInvoke ext.itinParsed with
        | .error e => .error e
        | .ok u2 => .ok (applyUpdate routed.2 u2, labels ++ [routed.1])

/-- Modelled from the spec: a full run of the compiled graph on an initial
state, returning the final state together with the sequence of labels the
retry router produced. -/
def runTrip (ord : Nat → List String → List String) (ext : Externals) (fuel : Nat)
    (s0 : TripPlannerState) : Except String (TripPlannerState × List String) :=
  match phase1 ord ext s0 with
  | .error e => .error e
  | .ok s2 => coordLoop ext fuel s2 []

/-- The identity completion order. -/
def idOrd : Nat → List String → List String := fun _ w => w

/-- A reversed completion order, used to exercise interleaving-independence. -/
def revOrd : Nat → List String → List String := fun _ w => w.reverse

/-- Concrete external outcomes for a degraded run: empty search results,
failing LLM selection and parse steps, successful LLM invocations.  Every
coordinator pass takes the fallback branch and estimates a total cost of 60
(three days of miscellaneous expenses). -/
def c1Ext : Externals :=
  { transportSearch := .ok []
    transportLLM := .error "llm"
    accommodationSearch := .ok []
    accommodationLLM := .error "llm"
    activitiesSearch := .ok []
    activitiesLLM := .error "llm"
    diningSearch := .ok []
    diningLLM := .error "llm"
    keyInvoke := .ok ()
    keyParsed := .error "parse"
    storyOutcome := fun _ => .failed
    coordInvoke := .ok ()
    coordParsed := .error "parse"
    itinInvoke := .ok ()
    itinParsed := .error "parse" }

/-- A concrete initial state in the shape built by `main.py`, with a budget
of 10 that every coordinator pass exceeds. -/
def c1State : TripPlannerState :=
  { destination := "Paris"
    origin := none
    travel_dates := none
    duration := none
    budget := 10
    preferred_activities := []
    constraints := []
    transport_options := []
    accommodation_options := []
    activities_options := []
    dining_options := []
    key_phrases := none
    activity_stories := []
    selected_transport := none
    selected_accommodation := none
    selected_activities := []
    selected_restaurants := []
    total_cost := 0
    remaining_budget := 10
    cost_breakdown := none
    requires_adjustment := false
    adjustment_iteration := 0
    max_iterations := 2
    final_itinerary := none
    messages := [] }

/-- `c1State` with the needs-adjustment flag raised. -/
def c3State : TripPlannerState := { c1State with requires_adjustment := true }

/-- The partial update the budget coordinator returns on `c1State` when the
parse step fails: the fallback branch with an estimated total of 60. -/
def wUc : StateUpdate :=
  { selected_transport := some none
    selected_accommodation := some none
    selected_activities := some []
    selected_restaurants := some []
    cost_breakdown := some
      { transport := 0, accommodation := 0, activities := 0, dining := 0,
        miscellaneous := 60, total := 60 }
    total_cost := some 60
    remaining_budget := some (-50)
    requires_adjustment := some true
    adjustment_iteration := some 0
    messages := some ["Budget coordination complete (fallback)"] }

/-- C2, counterexample.  On a state that needs adjustment (the fallback total
60 exceeds the budget 10) with the counter 0 below the ceiling 2, the partial
update returned by `budget_coordinator_node` carries the counter unchanged at
0, not the incremented value 1 the claim requires: the increment lives in the
router, not in the node's output. -/
theorem C2_counterexample :
    ∃ u, budget_coordinator_node c1State (.ok ()) (.error "parse") = .ok u ∧
      u.requires_adjustment = some true ∧
      c1State.adjustment_iteration = 0 ∧
      c1State.max_iterations = 2 ∧
      u.adjustment_iteration = some 0 ∧
      u.adjustment_iteration ≠ some (c1State.adjustment_iteration + 1) := by
  refine ⟨wUc, rfl, by decide, by decide, by decide, by decide, by decide⟩

/-- C2, amended.  The budget coordinator writes the adjustment counter back
into its output unchanged (in both the LLM-success and the fallback branch);
the increment is instead performed by the router `should_adjust_budget` as a
mutation of the just-merged state at the moment it returns the retry label,
so the counter update and the routing decision still happen together in one
wave. -/
theorem C2_amended (s : TripPlannerState) (inv : Except String Unit)
    (p : Except String CoordSelection) (u : StateUpdate)
    (h : budget_coordinator_node s inv p = .ok u) :
    u.adjustment_iteration = some s.adjustment_iteration ∧
    ∀ s' : TripPlannerState, s'.requires_adjustment = true →
      s'.adjustment_iteration < s'.max_iterations →
      should_adjust_budget s' =
        ("adjust", { s' with adjustment_iteration := s'.adjustment_iteration + 1 }) := by
  constructor
  · cases inv with
    | error e => exact absurd h (by simp [budget_coordinator_node])
    | ok _ =>
      cases p with
      | ok sel =>
        simp only [budget_coordinator_node, Except.ok.injEq] at h
        subst h
        rfl
      | error e =>
        simp only [budget_coordinator_node, Except.ok.injEq] at h
        subst h
        rfl
  · intro s' h1 h2
    simp [should_adjust_budget, h1, h2]

/-- Witness for C2_amended at a concrete input. -/
theorem C2_amended_witness :
    wUc.adjustment_iteration = some c1State.adjustment_iteration :=
  (C2_amended c1State (.ok ()) (.error "parse") wUc rfl).1

/-- C3, counterexample.  On a state with the needs-adjustment flag raised and
the counter below the ceiling, evaluating `should_adjust_budget` does not
leave the state unchanged: it writes `adjustment_iteration`. -/
theorem C3_counterexample :
    (should_adjust_budget c3State).1 = "adjust" ∧
    (should_adjust_budget c3State).2.adjustment_iteration =
      c3State.adjustment_iteration + 1 ∧
    (should_adjust_budget c3State).2 ≠ c3State := by
  refine ⟨by decide, by decide, by decide⟩

/-- C3, amended.  The router is read-only on every field of the state except
`adjustment_iteration`; it returns the state unchanged whenever it routes to
"generate", and it increments exactly `adjustment_iteration` when it routes
to "adjust", which happens only if the needs-adjustment flag is set and the
counter is below the ceiling. -/
theorem C3_amended (s : TripPlannerState) :
    ((should_adjust_budget s).2.destination = s.destination ∧
     (should_adjust_budget s).2.origin = s.origin ∧
     (should_adjust_budget s).2.travel_dates = s.travel_dates ∧
     (should_adjust_budget s).2.duration = s.duration ∧
     (should_adjust_budget s).2.budget = s.budget ∧
     (should_adjust_budget s).2.preferred_activities = s.preferred_activities ∧
     (should_adjust_budget s).2.constraints = s.constraints ∧
     (should_adjust_budget s).2.transport_options = s.transport_options ∧
     (should_adjust_budget s).2.accommodation_options = s.accommodation_options ∧
     (should_adjust_budget s).2.activities_options = s.activities_options ∧
     (should_adjust_budget s).2.dining_options = s.dining_options ∧
     (should_adjust_budget s).2.key_phrases = s.key_phrases ∧
     (should_adjust_budget s).2.activity_stories = s.activity_stories ∧
     (should_adjust_budget s).2.selected_transport = s.selected_transport ∧
     (should_adjust_budget s).2.selected_accommodation = s.selected_accommodation ∧
     (should_adjust_budget s).2.selected_activities = s.selected_activities ∧
     (should_adjust_budget s).2.selected_restaurants = s.selected_restaurants ∧
     (should_adjust_budget s).2.total_cost = s.total_cost ∧
     (should_adjust_budget s).2.remaining_budget = s.remaining_budget ∧
     (should_adjust_budget s).2.cost_breakdown = s.cost_breakdown ∧
     (should_adjust_budget s).2.requires_adjustment = s.requires_adjustment ∧
     (should_adjust_budget s).2.max_iterations = s.max_iterations ∧
     (should_adjust_budget s).2.final_itinerary = s.final_itinerary ∧
     (should_adjust_budget s).2.messages = s.messages) ∧
    ((should_adjust_budget s).1 = "generate" → (should_adjust_budget s).2 = s) ∧
    ((should_adjust_budget s).1 = "adjust" →
      (should_adjust_budget s).2.adjustment_iteration = s.adjustment_iteration + 1 ∧
      s.requires_adjustment = true ∧
      s.adjustment_iteration < s.max_iterations) := by
  unfold should_adjust_budget
  split
  case isTrue h =>
    refine ⟨⟨rfl, rfl, rfl, rfl, rfl, rfl, rfl, rfl, rfl, rfl, rfl, rfl, rfl, rfl,
      rfl, rfl, rfl, rfl, rfl, rfl, rfl, rfl, rfl, rfl⟩, ?_, ?_⟩
    · intro hc
      simp at hc
    · intro _
      exact ⟨rfl, h.1, h.2⟩
  case isFalse h =>
    refine ⟨⟨rfl, rfl, rfl, rfl, rfl, rfl, rfl, rfl, rfl, rfl, rfl, rfl, rfl, rfl,
      rfl, rfl, rfl, rfl, rfl, rfl, rfl, rfl, rfl, rfl⟩, fun _ => rfl, ?_⟩
    · intro hc
      simp at hc

/-- Witness for C3_amended at a concrete input. -/
theorem C3_amended_witness :
    (should_adjust_budget c3State).1 = "adjust" →
      (should_adjust_budget c3State).2.adjustment_iteration =
        c3State.adjustment_iteration + 1 ∧
      c3State.requires_adjustment = true ∧
      c3State.adjustment_iteration < c3State.max_iterations :=
  (C3_amended c3State).2.2

/-- C8 (confirmed).  For every input state the router returns either
"adjust" or "generate", and both labels are keys of the conditional edge's
target map, so the run-time routing-error branch is unreachable at this
edge. -/
theorem C8_router_total (s : TripPlannerState) :
    ((should_adjust_budget s).1 = "adjust" ∨ (should_adjust_budget s).1 = "generate") ∧
    (budget_targets.lookup (should_adjust_budget s).1).isSome = true := by
  unfold should_adjust_budget
  split
  · exact ⟨Or.inl rfl, rfl⟩
  · exact ⟨Or.inr rfl, rfl⟩

/-- The decidable form of "not below-or-equal is strictly above". -/
theorem not_decide_le (a b : Int) : (!decide (a ≤ b)) = decide (b < a) := by
  simp [← decide_not, not_le]

/-- C10 (confirmed).  Whatever branch the budget coordinator takes, its
partial update satisfies the arithmetic contract: the reported total equals
the cost breakdown's total, the remaining budget is the budget minus the
total, the needs-adjustment flag is exactly "total exceeds budget", and the
breakdown's total is the sum of its five components as guaranteed by
`estimate_costs`. -/
theorem C10_coordinator_consistency (s : TripPlannerState) (inv : Except String Unit)
    (p : Except String CoordSelection) (u : StateUpdate)
    (h : budget_coordinator_node s inv p = .ok u) :
    ∃ cb total, u.cost_breakdown = some cb ∧ u.total_cost = some total ∧
      total = cb.total ∧
      u.remaining_budget = some (s.budget - total) ∧
      u.requires_adjustment = some (decide (total > s.budget)) ∧
      cb.total = cb.transport + cb.accommodation + cb.activities + cb.dining +
        cb.miscellaneous := by
  cases inv with
  | error e => exact absurd h (by simp [budget_coordinator_node])
  | ok _ =>
    cases p with
    | ok sel =>
      simp only [budget_coordinator_node, Except.ok.injEq] at h
      subst h
      refine ⟨_, _, rfl, rfl, rfl, rfl, ?_, rfl⟩
      exact congrArg some (not_decide_le _ _)
    | error e =>
      simp only [budget_coordinator_node, Except.ok.injEq] at h
      subst h
      exact ⟨_, _, rfl, rfl, rfl, rfl, rfl, rfl⟩

/-- Witness for C10 at a concrete input. -/
theorem C10_coordinator_consistency_witness :
    ∃ cb total, wUc.cost_breakdown = some cb ∧ wUc.total_cost = some total ∧
      total = cb.total ∧
      wUc.remaining_budget = some (c1State.budget - total) ∧
      wUc.requires_adjustment = some (decide (total > c1State.budget)) ∧
      cb.total = cb.transport + cb.accommodation + cb.activities + cb.dining +
        cb.miscellaneous :=
  C10_coordinator_consistency c1State (.ok ()) (.error "parse") wUc rfl

/-- C5, counterexample.  `transport_node` does not convert every internal
error into a degraded partial update: when `search_flights` raises (its call
sits outside any try/except and the tool raises on API failure), the fault
propagates out of the node instead of producing an update. -/
theorem C5_counterexample :
    transport_node c1State (.error "SerpAPI flight search failed") (.error "llm") =
      .error "SerpAPI flight search failed" ∧
    ¬ ∃ u, transport_node c1State (.error "SerpAPI flight search failed") (.error "llm") =
      .ok u := by
  constructor
  · rfl
  · rintro ⟨u, hu⟩
    exact absurd hu (by simp [transport_node])

/-- C5, amended.  Each research node catches the errors of its LLM-selection
and parse step and degrades to a fallback update, and the story generator
contains all its per-activity errors; but a fault of the search-tool call
(transport, accommodation, activities, dining) or of the LLM invocation
itself (key phrases, budget coordinator, itinerary generator) propagates out
of the node uncaught. -/
theorem C5_amended (s : TripPlannerState) (e : String)
    (fs : List Flight) (hls : List Hotel) (acts : List Activity)
    (rs : List Restaurant)
    (llmT llmH llmA llmD : Except String (List String))
    (kp : Except String KeyPhrases) (sto : String → StoryOutcome)
    (cp : Except String CoordSelection) (ip : Except String ItinParsed) :
    transport_node s (.error e) llmT = .error e ∧
    (∃ u, transport_node s (.ok fs) llmT = .ok u) ∧
    accommodation_node s (.error e) llmH = .error e ∧
    (∃ u, accommodation_node s (.ok hls) llmH = .ok u) ∧
    activities_node s (.error e) llmA = .error e ∧
    (∃ u, activities_node s (.ok acts) llmA = .ok u) ∧
    dining_node s (.error e) llmD = .error e ∧
    (∃ u, dining_node s (.ok rs) llmD = .ok u) ∧
    key_phrases_node s (.error e) kp = .error e ∧
    (∃ u, key_phrases_node s (.ok ()) kp = .ok u) ∧
    (∃ u, story_generator_node s sto = .ok u) ∧
    budget_coordinator_node s (.error e) cp = .error e ∧
    (∃ u, budget_coordinator_node s (.ok ()) cp = .ok u) ∧
    itinerary_generator_node s (.error e) ip = .error e ∧
    (∃ u, itinerary_generator_node s (.ok ()) ip = .ok u) := by
  refine ⟨rfl, ⟨_, rfl⟩, rfl, ⟨_, rfl⟩, rfl, ⟨_, rfl⟩, rfl, ⟨_, rfl⟩, rfl, ?_, ?_,
    rfl, ?_, rfl, ?_⟩
  · cases kp with
    | ok p => exact ⟨_, rfl⟩
    | error e2 => exact ⟨_, rfl⟩
  · unfold story_generator_node
    split
    · exact ⟨_, rfl⟩
    · exact ⟨_, rfl⟩
  · cases cp with
    | ok sel => exact ⟨_, rfl⟩
    | error e2 => exact ⟨_, rfl⟩
  · cases ip with
    | ok itin =>
      unfold itinerary_generator_node
      simp only
      split
      · exact ⟨_, rfl⟩
      · exact ⟨_, rfl⟩
    | error e2 => exact ⟨_, rfl⟩

/-- C1 (confirmed).  On a run whose coordinator branch signals "needs
adjustment" on every pass (the degraded externals `c1Ext` put the estimated
total 60 above the budget 10 on every pass), with the counter starting at 0
and the ceiling at 2, `run()` terminates for every sufficient fuel: the
router produces exactly two "adjust" loop-backs followed by the "generate"
label into the itinerary generator, and the final state's
`adjustment_iteration` reads 2. -/
theorem C1_bounded_retry (fuel : Nat) (h : 3 ≤ fuel) :
    ∃ sf, runTrip idOrd c1Ext fuel c1State =
        .ok (sf, ["adjust", "adjust", "generate"]) ∧
      sf.adjustment_iteration = 2 := by
  obtain ⟨n, rfl⟩ : ∃ n, fuel = n + 3 := ⟨fuel - 3, by omega⟩
  exact ⟨_, rfl, rfl⟩

/-- Witness for C1 at the smallest sufficient fuel. -/
theorem C1_bounded_retry_witness :
    3 ≤ 3 ∧ ∃ sf, runTrip idOrd c1Ext 3 c1State =
        .ok (sf, ["adjust", "adjust", "generate"]) ∧
      sf.adjustment_iteration = 2 :=
  ⟨by decide, C1_bounded_retry 3 (by decide)⟩

/-- The snapshot the deferred budget coordinator receives on the degraded
run: the merged state after the fan-out wave and the story-generator wave. -/
def c4Snapshot : TripPlannerState :=
  { c1State with
    key_phrases := some fallback_phrases
    messages :=
      ["Selected 0 top accommodations", "Selected 0 top activities",
       "Selected 0 top restaurants", "Key phrases generated (fallback)",
       "Selected 0 top transport options", "Selected 0 top accommodations",
       "Selected 0 top activities", "Selected 0 top restaurants",
       "Key phrases generated (fallback)", "Selected 0 top transport options",
       "No activities to generate stories for"] }

/-- C4, code-bug evaluation.  Starting from an initial state with an empty
trace, after the fan-out wave and the story-generator wave the trace contains
every wave-one entry twice: each node returns `state.messages + [entry]`
while the `operator.add` reducer of `state.py` appends the returned list to
the existing channel, so a node that runs after others already wrote the
field duplicates their entries.  The claim's "no entry duplicated" fails. -/
theorem C4_messages_duplication :
    phase1 idOrd c1Ext c1State = .ok c4Snapshot ∧
    c4Snapshot.messages.count "Selected 0 top transport options" = 2 ∧
    c4Snapshot.messages.count "Key phrases generated (fallback)" = 2 ∧
    ¬ c4Snapshot.messages.Nodup := by
  refine ⟨rfl, by decide, by decide, by decide⟩

/-- The writes two concurrently run nodes have in common. -/
def sharedWrites (u v : StateUpdate) : List String :=
  (writtenFields u).inter (writtenFields v)

/-- C9 (confirmed).  Whenever the five fan-out nodes return updates, each
writes exactly its own overwrite field plus the accumulate field `messages`,
and for every pair of distinct fan-out nodes the only field written by both
is `messages`: the overwrite write-sets are pairwise disjoint. -/
theorem C9_disjoint_writes (s : TripPlannerState) (ext : Externals)
    (ut ua uc ud uk : StateUpdate)
    (ht : transport_node s ext.transportSearch ext.transportLLM = .ok ut)
    (hh : accommodation_node s ext.accommodationSearch ext.accommodationLLM = .ok ua)
    (hc : activities_node s ext.activitiesSearch ext.activitiesLLM = .ok uc)
    (hd : dining_node s ext.diningSearch ext.diningLLM = .ok ud)
    (hk : key_phrases_node s ext.keyInvoke ext.keyParsed = .ok uk) :
    writtenFields ut = ["transport_options", "messages"] ∧
    writtenFields ua = ["accommodation_options", "messages"] ∧
    writtenFields uc = ["activities_options", "messages"] ∧
    writtenFields ud = ["dining_options", "messages"] ∧
    writtenFields uk = ["key_phrases", "messages"] ∧
    sharedWrites ut ua = ["messages"] ∧ sharedWrites ut uc = ["messages"] ∧
    sharedWrites ut ud = ["messages"] ∧ sharedWrites ut uk = ["messages"] ∧
    sharedWrites ua uc = ["messages"] ∧ sharedWrites ua ud = ["messages"] ∧
    sharedWrites ua uk = ["messages"] ∧ sharedWrites uc ud = ["messages"] ∧
    sharedWrites uc uk = ["messages"] ∧ sharedWrites ud uk = ["messages"] := by
  have et : writtenFields ut = ["transport_options", "messages"] := by
    cases hs : ext.transportSearch with
    | error e => rw [hs] at ht; exact absurd ht (by simp [transport_node])
    | ok fs =>
      rw [hs] at ht
      simp only [transport_node, Except.ok.injEq] at ht
      subst ht; rfl
  have ea : writtenFields ua = ["accommodation_options", "messages"] := by
    cases hs : ext.accommodationSearch with
    | error e => rw [hs] at hh; exact absurd hh (by simp [accommodation_node])
    | ok hls =>
      rw [hs] at hh
      simp only [accommodation_node, Except.ok.injEq] at hh
      subst hh; rfl
  have ec : writtenFields uc = ["activities_options", "messages"] := by
    cases hs : ext.activitiesSearch with
    | error e => rw [hs] at hc; exact absurd hc (by simp [activities_node])
    | ok acts =>
      rw [hs] at hc
      simp only [activities_node, Except.ok.injEq] at hc
      subst hc; rfl
  have ed : writtenFields ud = ["dining_options", "messages"] := by
    cases hs : ext.diningSearch with
    | error e => rw [hs] at hd; exact absurd hd (by simp [dining_node])
    | ok rs =>
      rw [hs] at hd
      simp only [dining_node, Except.ok.injEq] at hd
      subst hd; rfl
  have ek : writtenFields uk = ["key_phrases", "messages"] := by
    cases hi : ext.keyInvoke with
    | error e => rw [hi] at hk; exact absurd hk (by simp [key_phrases_node])
    | ok _ =>
      rw [hi] at hk
      cases hp : ext.keyParsed with
      | ok p =>
        rw [hp] at hk
        simp only [key_phrases_node, Except.ok.injEq] at hk
        subst hk; rfl
      | error e =>
        rw [hp] at hk
        simp only [key_phrases_node, Except.ok.injEq] at hk
        subst hk; rfl
  refine ⟨et, ea, ec, ed, ek, ?_, ?_, ?_, ?_, ?_, ?_, ?_, ?_, ?_, ?_⟩ <;>
    simp only [sharedWrites, et, ea, ec, ed, ek] <;> decide

/-- The update `transport_node` returns on the degraded run. -/
def wTransport : StateUpdate :=
  { transport_options := some []
    messages := some ["Selected 0 top transport options"] }

/-- The update `accommodation_node` returns on the degraded run. -/
def wAccommodation : StateUpdate :=
  { accommodation_options := some []
    messages := some ["Selected 0 top accommodations"] }

/-- The update `activities_node` returns on the degraded run. -/
def wActivities : StateUpdate :=
  { activities_options := some []
    messages := some ["Selected 0 top activities"] }

/-- The update `dining_node` returns on the degraded run. -/
def wDining : StateUpdate :=
  { dining_options := some []
    messages := some ["Selected 0 top restaurants"] }

/-- The update `key_phrases_node` returns on the degraded run. -/
def wKeyPhrases : StateUpdate :=
  { key_phrases := some fallback_phrases
    messages := some ["Key phrases generated (fallback)"] }

/-- Witness for C9 at a concrete input. -/
theorem C9_disjoint_writes_witness :
    writtenFields wTransport = ["transport_options", "messages"] :=
  (C9_disjoint_writes c1State c1Ext wTransport wAccommodation wActivities wDining
    wKeyPhrases rfl rfl rfl rfl rfl).1

/-- The key-phrases payload the node stores: the parsed one on success, the
hard-coded fallback otherwise. -/
def keyPhrasesValue : Except String KeyPhrases → KeyPhrases
  | .ok p => p
  | .error _ => fallback_phrases

/-- Dispatch equation for the transport node. -/
theorem runNode_transport (ext : Externals) (s : TripPlannerState) :
    runNode ext "transport" s = transport_node s ext.transportSearch ext.transportLLM := rfl

/-- Dispatch equation for the accommodation node. -/
theorem runNode_accommodation (ext : Externals) (s : TripPlannerState) :
    runNode ext "accommodation" s =
      accommodation_node s ext.accommodationSearch ext.accommodationLLM := rfl

/-- Dispatch equation for the activities node. -/
theorem runNode_activities (ext : Externals) (s : TripPlannerState) :
    runNode ext "activities" s =
      activities_node s ext.activitiesSearch ext.activitiesLLM := rfl

/-- Dispatch equation for the dining node. -/
theorem runNode_dining (ext : Externals) (s : TripPlannerState) :
    runNode ext "dining" s = dining_node s ext.diningSearch ext.diningLLM := rfl

/-- Dispatch equation for the key-phrases node. -/
theorem runNode_key_phrases (ext : Externals) (s : TripPlannerState) :
    runNode ext "key_phrases" s = key_phrases_node s ext.keyInvoke ext.keyParsed := rfl

/-- Dispatch equation for the story-generator node. -/
theorem runNode_story (ext : Externals) (s : TripPlannerState) :
    runNode ext "story_generator" s = story_generator_node s ext.storyOutcome := rfl

/-- The merged state after the fan-out wave: when every search succeeds, the
wave completes and the merged state holds each research branch's output in
its own field. -/
theorem fanoutWaveRun (ext : Externals) (s0 : TripPlannerState)
    (fs : List Flight) (hls : List Hotel) (acts : List Activity) (rs : List Restaurant)
    (hf : ext.transportSearch = .ok fs) (hh : ext.accommodationSearch = .ok hls)
    (ha : ext.activitiesSearch = .ok acts) (hr : ext.diningSearch = .ok rs)
    (hk : ext.keyInvoke = .ok ()) :
    ∃ s1, runWave ext ["accommodation", "activities", "dining", "key_phrases",
        "transport"] s0 = .ok s1 ∧
      s1.transport_options = transportOptions fs ext.transportLLM ∧
      s1.accommodation_options = accommodationOptions hls ext.accommodationLLM ∧
      s1.activities_options = activitiesOptions acts ext.activitiesLLM ∧
      s1.dining_options = diningOptions rs ext.diningLLM ∧
      s1.key_phrases = some (keyPhrasesValue ext.keyParsed) ∧
      s1.activity_stories = s0.activity_stories := by
  cases hp : ext.keyParsed with
  | ok p =>
    cases hw : runWave ext ["accommodation", "activities", "dining", "key_phrases",
        "transport"] s0 with
    | error e =>
      simp [runWave, collectUpdates, runNode_transport, runNode_accommodation,
        runNode_activities, runNode_dining, runNode_key_phrases, hf, hh, ha, hr, hk, hp,
        transport_node, accommodation_node, activities_node, dining_node,
        key_phrases_node] at hw
    | ok s1 =>
      simp only [runWave, collectUpdates, runNode_transport, runNode_accommodation,
        runNode_activities, runNode_dining, runNode_key_phrases, hf, hh, ha, hr, hk, hp,
        transport_node, accommodation_node, activities_node, dining_node,
        key_phrases_node, Except.ok.injEq] at hw
      subst hw
      refine ⟨_, rfl, ?_, ?_, ?_, ?_, ?_, ?_⟩ <;>
        simp [applyUpdate, keyPhrasesValue, hp]
  | error e2 =>
    cases hw : runWave ext ["accommodation", "activities", "dining", "key_phrases",
        "transport"] s0 with
    | error e =>
      simp [runWave, collectUpdates, runNode_transport, runNode_accommodation,
        runNode_activities, runNode_dining, runNode_key_phrases, hf, hh, ha, hr, hk, hp,
        transport_node, accommodation_node, activities_node, dining_node,
        key_phrases_node] at hw
    | ok s1 =>
      simp only [runWave, collectUpdates, runNode_transport, runNode_accommodation,
        runNode_activities, runNode_dining, runNode_key_phrases, hf, hh, ha, hr, hk, hp,
        transport_node, accommodation_node, activities_node, dining_node,
        key_phrases_node, Except.ok.injEq] at hw
      subst hw
      refine ⟨_, rfl, ?_, ?_, ?_, ?_, ?_, ?_⟩ <;>
        simp [applyUpdate, keyPhrasesValue, hp]

/-- The merged state after the story-generator wave: the node always
completes, writes the story map computed from the snapshot's activities and
leaves every other branch output untouched. -/
theorem storyWaveRun (ext : Externals) (s1 : TripPlannerState) :
    ∃ s2, runWave ext ["story_generator"] s1 = .ok s2 ∧
      s2.activity_stories = storyStories s1.activities_options ext.storyOutcome ∧
      s2.transport_options = s1.transport_options ∧
      s2.accommodation_options = s1.accommodation_options ∧
      s2.activities_options = s1.activities_options ∧
      s2.dining_options = s1.dining_options ∧
      s2.key_phrases = s1.key_phrases := by
  by_cases hE : s1.activities_options.isEmpty
  · have hnil : s1.activities_options = [] := List.isEmpty_iff.mp hE
    cases hw : runWave ext ["story_generator"] s1 with
    | error e =>
      simp [runWave, collectUpdates, runNode_story, story_generator_node, hE] at hw
    | ok s2 =>
      simp only [runWave, collectUpdates, runNode_story, story_generator_node, hE,
        if_true, Except.ok.injEq] at hw
      subst hw
      refine ⟨_, rfl, ?_, ?_, ?_, ?_, ?_, ?_⟩ <;>
        simp [applyUpdate, hnil, storyStories]
  · cases hw : runWave ext ["story_generator"] s1 with
    | error e =>
      simp [runWave, collectUpdates, runNode_story, story_generator_node, hE] at hw
    | ok s2 =>
      simp only [runWave, collectUpdates, runNode_story, story_generator_node, hE,
        Bool.false_eq_true, ite_true, ite_false, if_true, if_false,
        Except.ok.injEq] at hw
      subst hw
      refine ⟨_, rfl, ?_, ?_, ?_, ?_, ?_, ?_⟩ <;>
        simp [applyUpdate]

/-- C6 (confirmed, engine modelled from the spec).  In the supplied graph the
wave schedule places the deferred `budget_coordinator` strictly after the
five fan-out nodes and after `story_generator`, so it never begins before
every node on every path into it has completed; and the snapshot it receives
(the state `phase1` produces, from which the coordinator pass starts in
`runTrip`) contains the outputs of all predecessor branches in their
respective fields. -/
theorem C6_barrier (ord : Nat → List String → List String) (ext : Externals)
    (s0 : TripPlannerState) (hord : ∀ i w, (ord i w).Perm w)
    (fs : List Flight) (hls : List Hotel) (acts : List Activity) (rs : List Restaurant)
    (hf : ext.transportSearch = .ok fs) (hh : ext.accommodationSearch = .ok hls)
    (ha : ext.activitiesSearch = .ok acts) (hr : ext.diningSearch = .ok rs)
    (hk : ext.keyInvoke = .ok ()) :
    scheduleWaves =
      [["transport", "accommodation", "activities", "dining", "key_phrases"],
       ["story_generator"], ["budget_coordinator"], ["itinerary_generator"]] ∧
    ∃ s2, phase1 ord ext s0 = .ok s2 ∧
      (∀ fuel, runTrip ord ext fuel s0 = coordLoop ext fuel s2 []) ∧
      s2.transport_options = transportOptions fs ext.transportLLM ∧
      s2.accommodation_options = accommodationOptions hls ext.accommodationLLM ∧
      s2.activities_options = activitiesOptions acts ext.activitiesLLM ∧
      s2.dining_options = diningOptions rs ext.diningLLM ∧
      s2.key_phrases = some (keyPhrasesValue ext.keyParsed) ∧
      s2.activity_stories =
        storyStories (activitiesOptions acts ext.activitiesLLM) ext.storyOutcome := by
  have hsort0 : sortString (ord 0 fanoutWave) =
      ["accommodation", "activities", "dining", "key_phrases", "transport"] := by
    rw [sortString_perm _ _ (hord 0 fanoutWave)]
    rfl
  have hsort1 : sortString (ord 1 ["story_generator"]) = ["story_generator"] := by
    rw [sortString_perm _ _ (hord 1 ["story_generator"])]
    rfl
  obtain ⟨s1, hw1, p1, p2, p3, p4, p5, p6⟩ :=
    fanoutWaveRun ext s0 fs hls acts rs hf hh ha hr hk
  obtain ⟨s2, hw2, q1, q2, q3, q4, q5, q6⟩ := storyWaveRun ext s1
  have hphase : phase1 ord ext s0 = .ok s2 := by
    simp only [phase1, hsort0, hsort1, hw1, hw2]
  refine ⟨rfl, s2, hphase, ?_, ?_, ?_, ?_, ?_, ?_, ?_⟩
  · intro fuel
    simp only [runTrip, hphase]
  · exact q2.trans p1
  · exact q3.trans p2
  · exact q4.trans p3
  · exact q5.trans p4
  · exact q6.trans p5
  · rw [q1, p3]

/-- Witness for C6 at a concrete input. -/
theorem C6_barrier_witness :
    scheduleWaves =
      [["transport", "accommodation", "activities", "dining", "key_phrases"],
       ["story_generator"], ["budget_coordinator"], ["itinerary_generator"]] :=
  (C6_barrier idOrd c1Ext c1State (fun _ w => List.Perm.refl w) [] [] [] []
    rfl rfl rfl rfl rfl).1

/-- C7 (confirmed, engine modelled from the spec).  For fixed externals
(fixed task outputs) and a fixed initial state, two runs of the graph agree
on their entire result — final state and label trace — for any two
completion orders of the parallel waves: the merge always happens in the
deterministic sorted order, so scheduling interleaving is invisible. -/
theorem C7_determinism (ord1 ord2 : Nat → List String → List String) (ext : Externals)
    (fuel : Nat) (s0 : TripPlannerState)
    (h1 : ∀ i w, (ord1 i w).Perm w) (h2 : ∀ i w, (ord2 i w).Perm w) :
    runTrip ord1 ext fuel s0 = runTrip ord2 ext fuel s0 := by
  have e0 : sortString (ord1 0 fanoutWave) = sortString (ord2 0 fanoutWave) :=
    sortString_perm _ _ ((h1 0 fanoutWave).trans (h2 0 fanoutWave).symm)
  have e1 : sortString (ord1 1 ["story_generator"]) =
      sortString (ord2 1 ["story_generator"]) :=
    sortString_perm _ _ ((h1 1 ["story_generator"]).trans
      (h2 1 ["story_generator"]).symm)
  simp only [runTrip, phase1, e0, e1]

/-- Witness for C7: a reversed completion order against the identity one. -/
theorem C7_determinism_witness :
    runTrip revOrd c1Ext 3 c1State = runTrip idOrd c1Ext 3 c1State :=
  C7_determinism revOrd idOrd c1Ext 3 c1State
    (fun _ w => List.reverse_perm w) (fun _ w => List.Perm.refl w)

end TripPlanner
